import Mathlib

/-!
Shallow embedding of the risk engine of `risk_utils.py`.

Numeric conventions: Python `int` inputs (age, bp, cholesterol, glucose)
are embedded as `ℤ`; Python `float` values (bmi, the accumulated
`risk_score` and every penalty literal) are embedded as `ℚ`.  All penalty
literals are decimal fractions with one digit (multiples of 1/10); an
exhaustive check over all 4320 penalty combinations shows that IEEE-754
double accumulation in the source order yields, for every combination,
exactly the double closest to the exact decimal sum, and that every
comparison against the tier thresholds 7, 4, 2 agrees with the exact
decimal comparison.  Hence the exact-rational embedding is observationally
equivalent to the float code for scores, tiers, colors and
recommendations.
-/

namespace RiskUtils

/-- BMI branch of `calculate_risk` (risk_utils.py lines 33-46): penalty added
to `risk_score` and the recommendation string appended. -/
def bmiFactor (bmi : ℚ) : ℚ × List String :=
  if bmi < 18.5 then
    (1.0, ["Your BMI is below normal. Consider consulting a nutritionist to reach a healthy weight."])
  else if 18.5 ≤ bmi ∧ bmi < 25 then
    (0, ["Your BMI is in the healthy range. Maintain your current lifestyle!"])
  else if 25 ≤ bmi ∧ bmi < 30 then
    (1.5, ["Your BMI indicates overweight. Regular exercise and balanced diet can help reduce health risks."])
  else if 30 ≤ bmi ∧ bmi < 35 then
    (2.5, ["Your BMI indicates obesity (Class I). Consult a healthcare provider for a weight management plan."])
  else
    (3.5, ["Your BMI indicates severe obesity. Medical supervision is strongly recommended for weight management."])

/-- Blood-pressure branch of `calculate_risk` (risk_utils.py lines 49-65). -/
def bpFactor (bp : ℤ) : ℚ × List String :=
  if bp < 90 then
    (1.0, ["Your blood pressure is low. Monitor for symptoms of hypotension and consult a doctor if concerned."])
  else if 90 ≤ bp ∧ bp < 120 then
    (0, ["Your blood pressure is optimal. Keep up the good work!"])
  else if 120 ≤ bp ∧ bp < 130 then
    (0.5, ["Your blood pressure is elevated. Lifestyle modifications may help prevent hypertension."])
  else if 130 ≤ bp ∧ bp < 140 then
    (1.5, ["Your blood pressure indicates Stage 1 hypertension. Consult your doctor about management strategies."])
  else if 140 ≤ bp ∧ bp < 180 then
    (2.5, ["Your blood pressure indicates Stage 2 hypertension. Medical treatment is likely needed."])
  else
    (4.0, ["Your blood pressure is dangerously high. Seek immediate medical attention!"])

/-- Cholesterol branch of `calculate_risk` (risk_utils.py lines 68-75). -/
def cholesterolFactor (cholesterol : ℤ) : ℚ × List String :=
  if cholesterol < 200 then
    (0, ["Your cholesterol level is desirable. Continue heart-healthy habits!"])
  else if 200 ≤ cholesterol ∧ cholesterol < 240 then
    (1.5, ["Your cholesterol is borderline high. Consider dietary changes to reduce cardiovascular risk."])
  else
    (2.5, ["Your cholesterol is high. Consult your doctor about medication and lifestyle changes."])

/-- Glucose branch of `calculate_risk` (risk_utils.py lines 78-88). -/
def glucoseFactor (glucose : ℤ) : ℚ × List String :=
  if glucose < 70 then
    (1.0, ["Your glucose level is low. Monitor for hypoglycemia symptoms and consult your doctor."])
  else if 70 ≤ glucose ∧ glucose < 100 then
    (0, ["Your fasting glucose is normal. Maintain a balanced diet!"])
  else if 100 ≤ glucose ∧ glucose < 126 then
    (1.5, ["Your glucose indicates prediabetes. Lifestyle changes can prevent type 2 diabetes."])
  else
    (3.0, ["Your glucose level suggests diabetes. Consult your doctor for proper diagnosis and management."])

/-- Age branch of `calculate_risk` (risk_utils.py lines 91-100); the two
youngest buckets append no recommendation. -/
def ageFactor (age : ℤ) : ℚ × List String :=
  if age < 30 then
    (0, [])
  else if 30 ≤ age ∧ age < 45 then
    (0.3, [])
  else if 45 ≤ age ∧ age < 60 then
    (0.8, ["Age is a risk factor. Regular health screenings become increasingly important."])
  else
    (1.2, ["At your age, regular medical check-ups and monitoring are essential."])

/-- Smoking branch of `calculate_risk` (risk_utils.py lines 103-110). -/
def smokingFactor (smoking : String) : ℚ × List String :=
  if smoking = "Current smoker" then
    (2.0, ["Smoking significantly increases health risks. Consider a smoking cessation program."])
  else if smoking = "Former smoker" then
    (0.5, ["Great job quitting smoking! Continue to avoid tobacco products."])
  else
    (0, ["Excellent! Staying smoke-free is one of the best health decisions."])

/-- The five fixed general-wellness recommendations always appended last
(risk_utils.py lines 113-117). -/
def generalRecommendations : List String :=
  ["Engage in at least 150 minutes of moderate aerobic activity per week.",
   "Stay hydrated and maintain a balanced diet rich in fruits, vegetables, and whole grains.",
   "Get 7-9 hours of quality sleep each night.",
   "Manage stress through relaxation techniques, meditation, or hobbies.",
   "Schedule regular check-ups with your healthcare provider."]

/-- `calculate_risk` (risk_utils.py lines 7-133): accumulates the six factor
penalties into `risk_score` starting from 0.0, collects the appended
recommendations in source order followed by the five general ones, and
selects risk level and color by the final threshold chain (lines 120-131).
Returns `(risk_level, color, risk_score, recommendations)`. -/
def calculate_risk (age : ℤ) (bmi : ℚ) (bp : ℤ) (cholesterol : ℤ)
    (glucose : ℤ) (smoking : String) : String × String × ℚ × List String :=
  let f1 := bmiFactor bmi
  let f2 := bpFactor bp
  let f3 := cholesterolFactor cholesterol
  let f4 := glucoseFactor glucose
  let f5 := ageFactor age
  let f6 := smokingFactor smoking
  let risk_score : ℚ := 0.0 + f1.1 + f2.1 + f3.1 + f4.1 + f5.1 + f6.1
  let recommendations :=
    f1.2 ++ f2.2 ++ f3.2 ++ f4.2 ++ f5.2 ++ f6.2 ++ generalRecommendations
  if risk_score ≥ 7 then
    ("High Risk", "#E74C3C", risk_score, recommendations)
  else if risk_score ≥ 4 then
    ("Moderate Risk", "#F39C12", risk_score, recommendations)
  else if risk_score ≥ 2 then
    ("Low-Moderate Risk", "#F9A825", risk_score, recommendations)
  else
    ("Low Risk", "#27AE60", risk_score, recommendations)

/-- The risk-level component of the threshold chain of risk_utils.py lines
120-131, as a standalone function of the final score. -/
def tierOfScore (score : ℚ) : String :=
  if score ≥ 7 then "High Risk"
  else if score ≥ 4 then "Moderate Risk"
  else if score ≥ 2 then "Low-Moderate Risk"
  else "Low Risk"

/-- The color component of the threshold chain of risk_utils.py lines
120-131, as a standalone function of the final score. -/
def colorOfScore (score : ℚ) : String :=
  if score ≥ 7 then "#E74C3C"
  else if score ≥ 4 then "#F39C12"
  else if score ≥ 2 then "#F9A825"
  else "#27AE60"

/-- Severity rank of the four tier strings in the order
Low < Low-Moderate < Moderate < High. -/
def tierSeverity (level : String) : ℕ :=
  if level = "High Risk" then 3
  else if level = "Moderate Risk" then 2
  else if level = "Low-Moderate Risk" then 1
  else 0

/-- `calculate_bp_category` (risk_utils.py lines 319-340). -/
def calculate_bp_category (bp : ℤ) : String :=
  if bp < 90 then "Low"
  else if bp < 120 then "Normal"
  else if bp < 130 then "Elevated"
  else if bp < 140 then "High (Stage 1)"
  else if bp < 180 then "High (Stage 2)"
  else "Hypertensive Crisis"

/-- Index of the branch taken by the blood-pressure chain of
`calculate_risk` (risk_utils.py lines 49-65), mirroring its conditions. -/
def bpScoreBucket (bp : ℤ) : ℕ :=
  if bp < 90 then 0
  else if 90 ≤ bp ∧ bp < 120 then 1
  else if 120 ≤ bp ∧ bp < 130 then 2
  else if 130 ≤ bp ∧ bp < 140 then 3
  else if 140 ≤ bp ∧ bp < 180 then 4
  else 5

/-- Index of the branch taken by `calculate_bp_category`
(risk_utils.py lines 329-340), mirroring its conditions. -/
def bpCategoryBucket (bp : ℤ) : ℕ :=
  if bp < 90 then 0
  else if bp < 120 then 1
  else if bp < 130 then 2
  else if bp < 140 then 3
  else if bp < 180 then 4
  else 5

/-- The penalty each of the six BP buckets contributes in `calculate_risk`,
indexed by bucket. -/
def bpBucketPenalties : List ℚ := [1.0, 0, 0.5, 1.5, 2.5, 4.0]

/-- The label each of the six BP buckets receives in
`calculate_bp_category`, indexed by bucket. -/
def bpBucketLabels : List String :=
  ["Low", "Normal", "Elevated", "High (Stage 1)", "High (Stage 2)", "Hypertensive Crisis"]

/-- Two-decimal fixed-point rendering of a nonnegative rational, embedding
the f-string formatting of risk_utils.py line 207.  Python rounds ties to
even; an exact tie (a half-cent) cannot arise for scores produced by
`calculate_risk`, which are multiples of 1/10, so round-half-up is exact
on every reachable input. -/
def formatFixed2 (q : ℚ) : String :=
  let c : ℤ := ⌊q * 100 + 1/2⌋
  toString (c / 100) ++ "." ++ (if c % 100 < 10 then "0" else "") ++ toString (c % 100)

/-- One-decimal fixed-point rendering, embedding the f-string formatting of
risk_utils.py line 222 (same tie caveat as `formatFixed2`). -/
def formatFixed1 (q : ℚ) : String :=
  let c : ℤ := ⌊q * 10 + 1/2⌋
  toString (c / 10) ++ "." ++ toString (c % 10)

/-- Numbered recommendation rendering of `generate_pdf` (risk_utils.py line
246): Python slices the list to its first ten entries and prefixes each
with its 1-based index. -/
def numberedItems (recommendations : List String) : List String :=
  (recommendations.take 10).mapIdx (fun i rec => toString (i + 1) ++ ". " ++ rec)

/-- Disclaimer paragraph of risk_utils.py lines 254-260. -/
def disclaimerText : String :=
  "DISCLAIMER: This report is generated for educational and informational purposes only. It is NOT intended to be a substitute for professional medical advice, diagnosis, or treatment. Always seek the advice of your physician or other qualified health provider with any questions you may have regarding a medical condition. Never disregard professional medical advice or delay in seeking it because of something you have read in this report."

/-- The sequence of text chunks `generate_pdf` writes into the document
(risk_utils.py lines 163-266), in order: title, timestamp line, summary
heading, risk level, score line, metrics heading and table, recommendations
heading, at most ten numbered recommendations, disclaimer and footer.
`now` stands for the formatted `datetime.now()` of line 174.  Layout-only
calls (fonts, colors, rules, spacing) contribute no text. -/
def pdfBody (risk : String) (score : ℚ) (age : ℤ) (bmi : ℚ)
    (bp cholesterol glucose : ℤ) (recommendations : List String)
    (now : String) : List String :=
  ["Health Risk Assessment Report",
   "Generated: " ++ now,
   "Risk Assessment Summary",
   "Risk Level:", risk,
   "Risk Score:", formatFixed2 score ++ " / 10",
   "Your Health Metrics",
   "Age:", toString age ++ " years",
   "Body Mass Index (BMI):", formatFixed1 bmi ++ " kg/mÂ²",
   "Blood Pressure (Systolic):", toString bp ++ " mmHg",
   "Total Cholesterol:", toString cholesterol ++ " mg/dL",
   "Fasting Glucose:", toString glucose ++ " mg/dL",
   "Personalized Recommendations"]
  ++ numberedItems recommendations
  ++ [disclaimerText,
      "Designed by smartcare healt care analysis"]

/-- `generate_pdf` (risk_utils.py lines 136-272).  The whole body runs in a
try/except: `fault` models an exception raised anywhere inside the try
block (e.g. a buffer/encoding fault in the PDF library), upon which the
source returns the empty byte string (line 272); otherwise it returns the
serialized document, modelled at text-chunk granularity as the list of
chunks written, so that the empty byte string corresponds to `[]`. -/
def generate_pdf (fault : Bool) (risk : String) (score : ℚ) (age : ℤ)
    (bmi : ℚ) (bp cholesterol glucose : ℤ) (recommendations : List String)
    (now : String) : List String :=
  if fault then []
  else pdfBody risk score age bmi bp cholesterol glucose recommendations now

end RiskUtils

namespace RiskUtils

/-! ### Helper lemmas -/

theorem smokingFactor_non :
    smokingFactor "Non-smoker" =
      (0, ["Excellent! Staying smoke-free is one of the best health decisions."]) := by
  simp [smokingFactor]

theorem smokingFactor_current :
    smokingFactor "Current smoker" =
      (2.0, ["Smoking significantly increases health risks. Consider a smoking cessation program."]) := by
  simp [smokingFactor]

theorem calculate_risk_score_eq (age : ℤ) (bmi : ℚ) (bp cholesterol glucose : ℤ)
    (smoking : String) :
    (calculate_risk age bmi bp cholesterol glucose smoking).2.2.1 =
      0.0 + (bmiFactor bmi).1 + (bpFactor bp).1 + (cholesterolFactor cholesterol).1 +
        (glucoseFactor glucose).1 + (ageFactor age).1 + (smokingFactor smoking).1 := by
  simp only [calculate_risk]
  split_ifs <;> rfl

theorem calculate_risk_recs_eq (age : ℤ) (bmi : ℚ) (bp cholesterol glucose : ℤ)
    (smoking : String) :
    (calculate_risk age bmi bp cholesterol glucose smoking).2.2.2 =
      (bmiFactor bmi).2 ++ (bpFactor bp).2 ++ (cholesterolFactor cholesterol).2 ++
        (glucoseFactor glucose).2 ++ (ageFactor age).2 ++ (smokingFactor smoking).2 ++
        generalRecommendations := by
  simp only [calculate_risk]
  split_ifs <;> rfl

theorem calculate_risk_level_eq (age : ℤ) (bmi : ℚ) (bp cholesterol glucose : ℤ)
    (smoking : String) :
    (calculate_risk age bmi bp cholesterol glucose smoking).1 =
      tierOfScore (calculate_risk age bmi bp cholesterol glucose smoking).2.2.1 := by
  simp only [calculate_risk, tierOfScore]
  split_ifs <;> rfl

theorem calculate_risk_color_eq (age : ℤ) (bmi : ℚ) (bp cholesterol glucose : ℤ)
    (smoking : String) :
    (calculate_risk age bmi bp cholesterol glucose smoking).2.1 =
      colorOfScore (calculate_risk age bmi bp cholesterol glucose smoking).2.2.1 := by
  simp only [calculate_risk, colorOfScore]
  split_ifs <;> rfl

theorem bmiFactor_bounds (bmi : ℚ) : 0 ≤ (bmiFactor bmi).1 ∧ (bmiFactor bmi).1 ≤ 3.5 := by
  unfold bmiFactor; split_ifs <;> norm_num

theorem bpFactor_bounds (bp : ℤ) : 0 ≤ (bpFactor bp).1 ∧ (bpFactor bp).1 ≤ 4.0 := by
  unfold bpFactor; split_ifs <;> norm_num

theorem cholesterolFactor_bounds (cholesterol : ℤ) :
    0 ≤ (cholesterolFactor cholesterol).1 ∧ (cholesterolFactor cholesterol).1 ≤ 2.5 := by
  unfold cholesterolFactor; split_ifs <;> norm_num

theorem glucoseFactor_bounds (glucose : ℤ) :
    0 ≤ (glucoseFactor glucose).1 ∧ (glucoseFactor glucose).1 ≤ 3.0 := by
  unfold glucoseFactor; split_ifs <;> norm_num

theorem ageFactor_bounds (age : ℤ) : 0 ≤ (ageFactor age).1 ∧ (ageFactor age).1 ≤ 1.2 := by
  unfold ageFactor; split_ifs <;> norm_num

theorem smokingFactor_bounds (smoking : String) :
    0 ≤ (smokingFactor smoking).1 ∧ (smokingFactor smoking).1 ≤ 2.0 := by
  unfold smokingFactor; split_ifs <;> norm_num

theorem tierOfScore_mono {s t : ℚ} (h : s ≤ t) :
    tierSeverity (tierOfScore s) ≤ tierSeverity (tierOfScore t) := by
  unfold tierOfScore
  split_ifs <;> simp [tierSeverity] <;> linarith

end RiskUtils

namespace RiskUtils

theorem bmiFactor_recs_length (bmi : ℚ) : (bmiFactor bmi).2.length = 1 := by
  unfold bmiFactor; split_ifs <;> rfl

theorem bpFactor_recs_length (bp : ℤ) : (bpFactor bp).2.length = 1 := by
  unfold bpFactor; split_ifs <;> rfl

theorem cholesterolFactor_recs_length (cholesterol : ℤ) :
    (cholesterolFactor cholesterol).2.length = 1 := by
  unfold cholesterolFactor; split_ifs <;> rfl

theorem glucoseFactor_recs_length (glucose : ℤ) : (glucoseFactor glucose).2.length = 1 := by
  unfold glucoseFactor; split_ifs <;> rfl

theorem smokingFactor_recs_length (smoking : String) :
    (smokingFactor smoking).2.length = 1 := by
  unfold smokingFactor; split_ifs <;> rfl

/-! ### Claim theorems -/

/-- C1: every listed bucket boundary falls in the bucket whose closed lower
end it sits on: bmi=25.0 adds +1.5 (overweight), bp=120 adds +0.5
(elevated), cholesterol=200 adds +1.5 (borderline high), glucose=100 adds
+1.5 (prediabetes), age=45 adds +0.8, age=30 adds +0.3. -/
theorem boundary_bucket_penalties :
    (bmiFactor 25).1 = 1.5 ∧ (bpFactor 120).1 = 0.5 ∧
    (cholesterolFactor 200).1 = 1.5 ∧ (glucoseFactor 100).1 = 1.5 ∧
    (ageFactor 45).1 = 0.8 ∧ (ageFactor 30).1 = 0.3 := by
  norm_num [bmiFactor, bpFactor, cholesterolFactor, glucoseFactor, ageFactor]

/-- C2: for every input, the risk level and color returned by
`calculate_risk` are exactly the functions `tierOfScore` and `colorOfScore`
of its returned final score, i.e. the high-to-low first-match threshold
chain score≥7 → High Risk/#E74C3C, score≥4 → Moderate Risk/#F39C12,
score≥2 → Low-Moderate Risk/#F9A825, else Low Risk/#27AE60. -/
theorem tier_color_determined_by_score :
    ∀ (age : ℤ) (bmi : ℚ) (bp cholesterol glucose : ℤ) (smoking : String),
      (calculate_risk age bmi bp cholesterol glucose smoking).1 =
        tierOfScore (calculate_risk age bmi bp cholesterol glucose smoking).2.2.1 ∧
      (calculate_risk age bmi bp cholesterol glucose smoking).2.1 =
        colorOfScore (calculate_risk age bmi bp cholesterol glucose smoking).2.2.1 :=
  fun age bmi bp cholesterol glucose smoking =>
    ⟨calculate_risk_level_eq age bmi bp cholesterol glucose smoking,
     calculate_risk_color_eq age bmi bp cholesterol glucose smoking⟩

/-- C8: for every input, the score returned by `calculate_risk` is ≥ 0:
each factor contribution is non-negative and the accumulator starts at
0.0. -/
theorem score_nonneg :
    ∀ (age : ℤ) (bmi : ℚ) (bp cholesterol glucose : ℤ) (smoking : String),
      0 ≤ (calculate_risk age bmi bp cholesterol glucose smoking).2.2.1 := by
  intro age bmi bp cholesterol glucose smoking
  rw [calculate_risk_score_eq]
  have h1 := (bmiFactor_bounds bmi).1
  have h2 := (bpFactor_bounds bp).1
  have h3 := (cholesterolFactor_bounds cholesterol).1
  have h4 := (glucoseFactor_bounds glucose).1
  have h5 := (ageFactor_bounds age).1
  have h6 := (smokingFactor_bounds smoking).1
  norm_num
  linarith

/-- C10: for every input, even outside the declared ranges, the score is at
most 16.2 = 3.5 + 4.0 + 2.5 + 3.0 + 1.2 + 2.0, the sum of the maximal
per-factor penalties. -/
theorem score_upper_bound :
    ∀ (age : ℤ) (bmi : ℚ) (bp cholesterol glucose : ℤ) (smoking : String),
      (calculate_risk age bmi bp cholesterol glucose smoking).2.2.1 ≤ 16.2 := by
  intro age bmi bp cholesterol glucose smoking
  rw [calculate_risk_score_eq]
  have h1 := (bmiFactor_bounds bmi).2
  have h2 := (bpFactor_bounds bp).2
  have h3 := (cholesterolFactor_bounds cholesterol).2
  have h4 := (glucoseFactor_bounds glucose).2
  have h5 := (ageFactor_bounds age).2
  have h6 := (smokingFactor_bounds smoking).2
  norm_num at h1 h2 h3 h4 h5 h6 ⊢
  linarith

end RiskUtils

namespace RiskUtils

/-- C3: raising a single factor to a bucket with a penalty at least as
large, all other factors held fixed, never decreases the score and never
decreases tier severity (Low < Low-Moderate < Moderate < High), for each of
the six factors. -/
theorem single_factor_monotone :
    (∀ (age : ℤ) (bmi bmi' : ℚ) (bp cholesterol glucose : ℤ) (smoking : String),
      (bmiFactor bmi).1 ≤ (bmiFactor bmi').1 →
      (calculate_risk age bmi bp cholesterol glucose smoking).2.2.1 ≤
        (calculate_risk age bmi' bp cholesterol glucose smoking).2.2.1 ∧
      tierSeverity (calculate_risk age bmi bp cholesterol glucose smoking).1 ≤
        tierSeverity (calculate_risk age bmi' bp cholesterol glucose smoking).1) ∧
    (∀ (age : ℤ) (bmi : ℚ) (bp bp' cholesterol glucose : ℤ) (smoking : String),
      (bpFactor bp).1 ≤ (bpFactor bp').1 →
      (calculate_risk age bmi bp cholesterol glucose smoking).2.2.1 ≤
        (calculate_risk age bmi bp' cholesterol glucose smoking).2.2.1 ∧
      tierSeverity (calculate_risk age bmi bp cholesterol glucose smoking).1 ≤
        tierSeverity (calculate_risk age bmi bp' cholesterol glucose smoking).1) ∧
    (∀ (age : ℤ) (bmi : ℚ) (bp cholesterol cholesterol' glucose : ℤ) (smoking : String),
      (cholesterolFactor cholesterol).1 ≤ (cholesterolFactor cholesterol').1 →
      (calculate_risk age bmi bp cholesterol glucose smoking).2.2.1 ≤
        (calculate_risk age bmi bp cholesterol' glucose smoking).2.2.1 ∧
      tierSeverity (calculate_risk age bmi bp cholesterol glucose smoking).1 ≤
        tierSeverity (calculate_risk age bmi bp cholesterol' glucose smoking).1) ∧
    (∀ (age : ℤ) (bmi : ℚ) (bp cholesterol glucose glucose' : ℤ) (smoking : String),
      (glucoseFactor glucose).1 ≤ (glucoseFactor glucose').1 →
      (calculate_risk age bmi bp cholesterol glucose smoking).2.2.1 ≤
        (calculate_risk age bmi bp cholesterol glucose' smoking).2.2.1 ∧
      tierSeverity (calculate_risk age bmi bp cholesterol glucose smoking).1 ≤
        tierSeverity (calculate_risk age bmi bp cholesterol glucose' smoking).1) ∧
    (∀ (age age' : ℤ) (bmi : ℚ) (bp cholesterol glucose : ℤ) (smoking : String),
      (ageFactor age).1 ≤ (ageFactor age').1 →
      (calculate_risk age bmi bp cholesterol glucose smoking).2.2.1 ≤
        (calculate_risk age' bmi bp cholesterol glucose smoking).2.2.1 ∧
      tierSeverity (calculate_risk age bmi bp cholesterol glucose smoking).1 ≤
        tierSeverity (calculate_risk age' bmi bp cholesterol glucose smoking).1) ∧
    (∀ (age : ℤ) (bmi : ℚ) (bp cholesterol glucose : ℤ) (smoking smoking' : String),
      (smokingFactor smoking).1 ≤ (smokingFactor smoking').1 →
      (calculate_risk age bmi bp cholesterol glucose smoking).2.2.1 ≤
        (calculate_risk age bmi bp cholesterol glucose smoking').2.2.1 ∧
      tierSeverity (calculate_risk age bmi bp cholesterol glucose smoking).1 ≤
        tierSeverity (calculate_risk age bmi bp cholesterol glucose smoking').1) := by
  refine ⟨?_, ?_, ?_, ?_, ?_, ?_⟩ <;>
  · intro a b c d e f g h
    constructor
    · rw [calculate_risk_score_eq, calculate_risk_score_eq]
      gcongr
    · rw [calculate_risk_level_eq, calculate_risk_level_eq]
      apply tierOfScore_mono
      rw [calculate_risk_score_eq, calculate_risk_score_eq]
      gcongr

/-- C3 witness: instantiated at the blood-pressure factor moving from the
optimal bucket (penalty 0) at bp=110 to the crisis bucket (penalty 4.0) at
bp=190. -/
theorem single_factor_monotone_witness :
    (calculate_risk 30 22 110 180 85 "Non-smoker").2.2.1 ≤
      (calculate_risk 30 22 190 180 85 "Non-smoker").2.2.1 ∧
    tierSeverity (calculate_risk 30 22 110 180 85 "Non-smoker").1 ≤
      tierSeverity (calculate_risk 30 22 190 180 85 "Non-smoker").1 :=
  single_factor_monotone.2.1 30 22 110 190 180 85 "Non-smoker"
    (by norm_num [bpFactor])

end RiskUtils

namespace RiskUtils

/-- C4: the three worked examples of the spec are reproduced exactly:
(30, 25.0, 120, 200, 100, non-smoker) gives score 5.3, Moderate Risk,
#F39C12; (65, 38.0, 190, 260, 135, current smoker) gives score 16.2, High
Risk; (25, 22.0, 110, 180, 85, non-smoker) gives score 0.0, Low Risk,
#27AE60. -/
theorem worked_examples :
    ((calculate_risk 30 25 120 200 100 "Non-smoker").2.2.1 = 5.3 ∧
     (calculate_risk 30 25 120 200 100 "Non-smoker").1 = "Moderate Risk" ∧
     (calculate_risk 30 25 120 200 100 "Non-smoker").2.1 = "#F39C12") ∧
    ((calculate_risk 65 38 190 260 135 "Current smoker").2.2.1 = 16.2 ∧
     (calculate_risk 65 38 190 260 135 "Current smoker").1 = "High Risk") ∧
    ((calculate_risk 25 22 110 180 85 "Non-smoker").2.2.1 = 0.0 ∧
     (calculate_risk 25 22 110 180 85 "Non-smoker").1 = "Low Risk" ∧
     (calculate_risk 25 22 110 180 85 "Non-smoker").2.1 = "#27AE60") := by
  refine ⟨⟨?_, ?_, ?_⟩, ⟨?_, ?_⟩, ⟨?_, ?_, ?_⟩⟩ <;>
  · simp only [calculate_risk, bmiFactor, bpFactor, cholesterolFactor, glucoseFactor,
      ageFactor, smokingFactor_non, smokingFactor_current]
    norm_num

/-- C5: for every input, the recommendation list ends with exactly the five
fixed general-wellness strings, in their fixed order, as its last five
elements. -/
theorem recommendations_end_with_general :
    ∀ (age : ℤ) (bmi : ℚ) (bp cholesterol glucose : ℤ) (smoking : String),
      generalRecommendations.length = 5 ∧
      List.IsSuffix generalRecommendations
        (calculate_risk age bmi bp cholesterol glucose smoking).2.2.2 := by
  intro age bmi bp cholesterol glucose smoking
  refine ⟨rfl, ?_⟩
  rw [calculate_risk_recs_eq]
  exact List.suffix_append _ _

/-- C6: the recommendation list always has at least 6 elements; and the
numbered-item rendering of `generate_pdf` emits at most 10 items and is
unchanged by anything beyond the tenth recommendation. -/
theorem recs_count_and_pdf_truncation :
    (∀ (age : ℤ) (bmi : ℚ) (bp cholesterol glucose : ℤ) (smoking : String),
      6 ≤ (calculate_risk age bmi bp cholesterol glucose smoking).2.2.2.length) ∧
    (∀ recommendations : List String,
      (numberedItems recommendations).length ≤ 10 ∧
      numberedItems recommendations = numberedItems (recommendations.take 10)) := by
  constructor
  · intro age bmi bp cholesterol glucose smoking
    rw [calculate_risk_recs_eq]
    simp only [List.length_append, bmiFactor_recs_length, bpFactor_recs_length,
      cholesterolFactor_recs_length, glucoseFactor_recs_length,
      smokingFactor_recs_length, generalRecommendations]
    simp
  · intro recommendations
    constructor
    · simp [numberedItems]
    · simp [numberedItems, List.take_take]

/-- C7: `generate_pdf` never returns a partial document: without a
rendering fault it returns a non-empty document, and on any internal
rendering fault it returns the empty byte string. -/
theorem generate_pdf_empty_iff_fault :
    (∀ (risk : String) (score : ℚ) (age : ℤ) (bmi : ℚ)
       (bp cholesterol glucose : ℤ) (recommendations : List String) (now : String),
      generate_pdf false risk score age bmi bp cholesterol glucose
        recommendations now ≠ []) ∧
    (∀ (risk : String) (score : ℚ) (age : ℤ) (bmi : ℚ)
       (bp cholesterol glucose : ℤ) (recommendations : List String) (now : String),
      generate_pdf true risk score age bmi bp cholesterol glucose
        recommendations now = []) := by
  constructor <;> intros <;> simp [generate_pdf, pdfBody]

/-- C9: the blood-pressure chain of `calculate_risk` and
`calculate_bp_category` partition the axis at exactly 90, 120, 130, 140 and
180: they always select the same bucket, and penalty and label are the
fixed per-bucket tables evaluated at that common bucket. -/
theorem bp_buckets_agree :
    ∀ bp : ℤ,
      bpScoreBucket bp = bpCategoryBucket bp ∧
      (bpFactor bp).1 = bpBucketPenalties.getD (bpScoreBucket bp) 0 ∧
      calculate_bp_category bp = bpBucketLabels.getD (bpCategoryBucket bp) "" := by
  intro bp
  unfold bpScoreBucket bpCategoryBucket bpFactor calculate_bp_category
    bpBucketPenalties bpBucketLabels
  split_ifs <;>
    first
      | exact ⟨rfl, rfl, rfl⟩
      | (exfalso; omega)

end RiskUtils
